import Mathlib

/- Shallow embedding of the Sultra-25 spreadsheet monitor (src/bot.py):
the row filter (get_sultra25_data), the delta detector (find_new_rows),
the Telegram delivery fan-out (send_telegram_message,
send_multiple_notifications) and the failure governor of the polling loop
(start_monitoring).  Python strings are modelled as lists of characters;
the external collaborators (Google Sheets fetch, HTTP post) are modelled
by their observable outcomes, passed in as explicit arguments. -/

/-- A Python string, modelled as its list of characters. -/
abbrev PyStr := List Char

/-- A raw spreadsheet row, as returned by get_all_values: a list of cell
strings. -/
abbrev RawRow := List PyStr

/-- Python str.strip with no argument: remove whitespace from both ends. -/
def pyStrip (s : PyStr) : PyStr :=
  ((s.dropWhile Char.isWhitespace).reverse.dropWhile Char.isWhitespace).reverse

/-- Python str.isdigit restricted to ASCII decimal digits (the digits the
spec means): true iff the string is non-empty and every character is a
decimal digit. -/
def pyIsdigit (s : PyStr) : Bool :=
  !s.isEmpty && s.all Char.isDigit

/-- Python truthiness of a string: non-empty. -/
def pyTruthy (s : PyStr) : Bool :=
  !s.isEmpty

/-- Python row[j] at the guarded use sites of bot.py (every access is
preceded by a length check, so the default is never produced there). -/
def cell (row : RawRow) (j : Nat) : PyStr :=
  row.getD j []

/-- The record dictionary built in get_sultra25_data, bot.py lines
106-111: keys no, customer_name, segment, am_hotda. -/
structure Record where
  no : PyStr
  customer_name : PyStr
  segment : PyStr
  am_hotda : PyStr
deriving DecidableEq

/-- bot.py line 102: has_number = len(row) > 0 and row[0] and
row[0].strip() and row[0].isdigit(). -/
def has_number (row : RawRow) : Bool :=
  decide (0 < row.length) && pyTruthy (cell row 0) &&
    pyTruthy (pyStrip (cell row 0)) && pyIsdigit (cell row 0)

/-- bot.py line 103: has_customer = len(row) > 5 and row[5] and
row[5].strip(). -/
def has_customer (row : RawRow) : Bool :=
  decide (5 < row.length) && pyTruthy (cell row 5) &&
    pyTruthy (pyStrip (cell row 5))

/-- bot.py lines 106-111: the projection of an accepted row. -/
def projectRow (row : RawRow) : Record :=
  { no := cell row 0
    customer_name := cell row 5
    segment := if 6 < row.length then cell row 6 else []
    am_hotda := if 7 < row.length then cell row 7 else [] }

/-- bot.py lines 99-111: the enumerate loop over all_data, accumulating
relevant_data.  The first argument is the index of the head row. -/
def relevantLoop : Nat → List RawRow → List Record
  | _, [] => []
  | i, row :: rest =>
    if 3 ≤ i ∧ 8 ≤ row.length then
      if has_number row && has_customer row then
        projectRow row :: relevantLoop (i + 1) rest
      else
        relevantLoop (i + 1) rest
    else
      relevantLoop (i + 1) rest

/-- Which collaborator call of get_sultra25_data raised (bot.py lines
95-97: open_by_url, worksheet, get_all_values). -/
inductive FetchError where
  | openFailed
  | worksheetFailed
  | getValuesFailed
deriving DecidableEq

/-- Observable outcome of the fetch collaborator chain in
get_sultra25_data: either all raw cell values, or an exception raised at
one of the three steps. -/
inductive FetchResult where
  | ok (all_data : List RawRow)
  | error (e : FetchError)
deriving DecidableEq

/-- bot.py lines 92-118: filter the fetched rows and pair the result with
its length; on any exception from the collaborator chain return ([], 0). -/
def get_sultra25_data : FetchResult → List Record × Nat
  | .error _ => ([], 0)
  | .ok all_data =>
    let relevant_data := relevantLoop 0 all_data
    (relevant_data, relevant_data.length)

/-- The mutable detector state held on self (bot.py lines 63-64, mutated
at lines 122-124 and 137-138). -/
structure DetectorState where
  previous_row_count : Nat
  previous_data : List Record
deriving DecidableEq

/-- The state set by the constructor, bot.py lines 63-64. -/
def initialState : DetectorState :=
  ⟨0, []⟩

/-- Python slice l[-k:]: the last k elements (all of l when k = 0 or
k ≥ len(l), matching Python's index clamping and its l[-0:] = l). -/
def pyTailSlice (k : Nat) (l : List α) : List α :=
  if k = 0 then l else l.drop (l.length - k)

/-- bot.py lines 120-139: find_new_rows.  Takes the current detector
state and the two call arguments, returns the returned list and the
updated state. -/
def find_new_rows (s : DetectorState) (current_data : List Record)
    (current_row_count : Nat) : List Record × DetectorState :=
  if s.previous_row_count = 0 then
    ([], ⟨current_row_count, current_data⟩)
  else
    let new_rows :=
      if s.previous_row_count < current_row_count then
        pyTailSlice (current_row_count - s.previous_row_count) current_data
      else []
    (new_rows, ⟨current_row_count, current_data⟩)

/-- Observable outcome of the HTTP post in send_telegram_message: a
response with a status code, or a raised exception (timeout or transport
error). -/
inductive SendOutcome where
  | response (status_code : Nat)
  | exception
deriving DecidableEq

/-- bot.py lines 141-155: returns status_code == 200; on exception logs
and returns False (the function itself never raises, which the embedding
reflects by being total). -/
def send_telegram_message : SendOutcome → Bool
  | .response code => code == 200
  | .exception => false

/-- bot.py lines 157-166: the for loop over chat_ids.  Returns the final
success_count together with the list of chat ids an attempt was made for,
in order (the trace of send_telegram_message invocations). -/
def send_loop (outcomeOf : PyStr → SendOutcome) : List PyStr → Nat × List PyStr
  | [] => (0, [])
  | chat_id :: rest =>
    let r := send_loop outcomeOf rest
    ((if send_telegram_message (outcomeOf chat_id) then 1 else 0) + r.1,
      chat_id :: r.2)

/-- bot.py lines 157-166: the returned success count. -/
def send_multiple_notifications (outcomeOf : PyStr → SendOutcome)
    (chat_ids : List PyStr) : Nat :=
  (send_loop outcomeOf chat_ids).1

/-- Outcome of one tick of the monitoring loop body (bot.py lines
192-202): it ran to completion, or some step raised. -/
inductive Tick where
  | success
  | failure
deriving DecidableEq

/-- bot.py lines 189-213: the failure governor of one loop iteration.
Given the consecutive-error counter before the tick and the tick's
outcome, returns the counter after the iteration and the argument passed
to time.sleep. -/
def governor_step (error_count : Nat) : Tick → Nat × Nat
  | .success => (0, 15)
  | .failure =>
    if 5 ≤ error_count + 1 then (0, 300) else (error_count + 1, 60)

/-- The acceptance condition of the filter loop exactly as the code tests
it: index at least 3, at least 8 cells, has_number and has_customer. -/
def codeAccepts (i : Nat) (row : RawRow) : Bool :=
  decide (3 ≤ i) && decide (8 ≤ row.length) && (has_number row && has_customer row)

/-- Acceptance as claim C2 words it: index at least 3, at least 8 cells,
cell 0 non-empty after trimming and made of decimal digits only, cell 5
non-empty after trimming. -/
def specAccepts (i : Nat) (row : RawRow) : Bool :=
  decide (3 ≤ i) && decide (8 ≤ row.length) &&
    !(pyStrip (cell row 0)).isEmpty && (cell row 0).all Char.isDigit &&
    !(pyStrip (cell row 5)).isEmpty

/-- Acceptance as amended claim C3 words it: index at least 3, at least
8 cells, cell 0 non-empty and made of decimal digits only, cell 5
non-empty after trimming. -/
def spec8Accepts (i : Nat) (row : RawRow) : Bool :=
  decide (3 ≤ i) && decide (8 ≤ row.length) &&
    !(cell row 0).isEmpty && (cell row 0).all Char.isDigit &&
    !(pyStrip (cell row 5)).isEmpty

/-- The projection as claim C2 words it: sequence_id from cell 0,
customer_name from cell 5, segment from cell 6, owner from cell 7. -/
def specProject (row : RawRow) : Record :=
  ⟨cell row 0, cell row 5, cell row 6, cell row 7⟩

/-- The last k elements of a list, in their original order. -/
def lastElems (k : Nat) (l : List α) : List α :=
  l.drop (l.length - k)

/-- A sample normalized record used by witnesses and counterexamples. -/
def sampleRecord : Record :=
  ⟨['1'], ['A'], ['S'], ['O']⟩

/-- A sample fetch: three header rows, then one valid row that projects
to sampleRecord. -/
def sampleRows : List RawRow :=
  [[], [], [], [['1'], [], [], [], [], ['A'], ['S'], ['O']]]

/-- A row with only 6 cells whose cell 0 is numeric and non-empty and
whose cell 5 is non-empty: claim C3 as stated would accept it. -/
def widthSixRow : RawRow :=
  [['1'], [], [], [], [], ['A', 'l', 'i', 'c', 'e']]

/-- An 8-cell row whose cell 5 is a single blank: non-empty, but empty
after trimming, so the code rejects it. -/
def blankCustomerRow : RawRow :=
  [['7'], [], [], [], [], [' '], ['S'], ['O']]

/-- Decimal digits are not whitespace. -/
theorem digit_not_whitespace (c : Char) (h : c.isDigit = true) :
    c.isWhitespace = false := by
  cases hw : c.isWhitespace
  · rfl
  · exfalso
    simp only [Char.isWhitespace, Bool.or_eq_true, decide_eq_true_eq] at hw
    rcases hw with ((rfl | rfl) | rfl) | rfl <;> exact absurd h (by decide)

theorem dropWhile_ws_of_digits (s : PyStr) (h : s.all Char.isDigit = true) :
    s.dropWhile Char.isWhitespace = s := by
  cases s with
  | nil => rfl
  | cons c t =>
    have hc : c.isDigit = true := by
      simp only [List.all_cons, Bool.and_eq_true] at h
      exact h.1
    simp [List.dropWhile, digit_not_whitespace c hc]

/-- Stripping an all-digit string is the identity. -/
theorem pyStrip_of_digits (s : PyStr) (h : s.all Char.isDigit = true) :
    pyStrip s = s := by
  unfold pyStrip
  rw [dropWhile_ws_of_digits s h]
  rw [dropWhile_ws_of_digits s.reverse (by simpa using h)]
  exact s.reverse_reverse

theorem bool_eq_of_iff {a b : Bool} (h : a = true ↔ b = true) : a = b := by
  cases a <;> cases b <;> simp_all

theorem codeAccepts_true_iff (i : Nat) (row : RawRow) :
    codeAccepts i row = true ↔
      3 ≤ i ∧ 8 ≤ row.length ∧ cell row 0 ≠ [] ∧
        (cell row 0).all Char.isDigit = true ∧ pyStrip (cell row 5) ≠ [] := by
  unfold codeAccepts has_number has_customer pyTruthy pyIsdigit
  simp only [Bool.and_eq_true, decide_eq_true_eq, Bool.not_eq_true',
    List.isEmpty_eq_false, List.isEmpty_iff]
  constructor
  · intro h
    obtain ⟨⟨h3, h8⟩, ⟨⟨⟨hpos, hc0⟩, hs0⟩, hd, hdig⟩, ⟨h5, hc5⟩, hs5⟩ := h
    exact ⟨h3, h8, hc0, hdig, hs5⟩
  · intro h
    obtain ⟨h3, h8, hc0, hdig, hs5⟩ := h
    refine ⟨⟨h3, h8⟩, ⟨⟨⟨by omega, hc0⟩, ?_⟩, hc0, hdig⟩, ⟨by omega, ?_⟩, hs5⟩
    · rw [pyStrip_of_digits _ hdig]; exact hc0
    · intro h5nil
      apply hs5
      rw [h5nil]
      rfl

theorem specAccepts_true_iff (i : Nat) (row : RawRow) :
    specAccepts i row = true ↔
      3 ≤ i ∧ 8 ≤ row.length ∧ cell row 0 ≠ [] ∧
        (cell row 0).all Char.isDigit = true ∧ pyStrip (cell row 5) ≠ [] := by
  unfold specAccepts
  simp only [Bool.and_eq_true, decide_eq_true_eq, Bool.not_eq_true',
    List.isEmpty_eq_false, List.isEmpty_iff]
  constructor
  · intro h
    obtain ⟨⟨⟨⟨h3, h8⟩, hs0⟩, hdig⟩, hs5⟩ := h
    refine ⟨h3, h8, ?_, hdig, hs5⟩
    intro h0nil
    apply hs0
    rw [h0nil]
    rfl
  · intro h
    obtain ⟨h3, h8, hc0, hdig, hs5⟩ := h
    refine ⟨⟨⟨⟨h3, h8⟩, ?_⟩, hdig⟩, hs5⟩
    rw [pyStrip_of_digits _ hdig]; exact hc0

theorem spec8Accepts_true_iff (i : Nat) (row : RawRow) :
    spec8Accepts i row = true ↔
      3 ≤ i ∧ 8 ≤ row.length ∧ cell row 0 ≠ [] ∧
        (cell row 0).all Char.isDigit = true ∧ pyStrip (cell row 5) ≠ [] := by
  unfold spec8Accepts
  simp only [Bool.and_eq_true, decide_eq_true_eq, Bool.not_eq_true',
    List.isEmpty_eq_false, List.isEmpty_iff]
  constructor
  · intro h
    obtain ⟨⟨⟨⟨h3, h8⟩, hc0⟩, hdig⟩, hs5⟩ := h
    exact ⟨h3, h8, hc0, hdig, hs5⟩
  · intro h
    obtain ⟨h3, h8, hc0, hdig, hs5⟩ := h
    exact ⟨⟨⟨⟨h3, h8⟩, hc0⟩, hdig⟩, hs5⟩

theorem codeAccepts_eq_specAccepts (i : Nat) (row : RawRow) :
    codeAccepts i row = specAccepts i row :=
  bool_eq_of_iff
    ((codeAccepts_true_iff i row).trans (specAccepts_true_iff i row).symm)

theorem codeAccepts_eq_spec8Accepts (i : Nat) (row : RawRow) :
    codeAccepts i row = spec8Accepts i row :=
  bool_eq_of_iff
    ((codeAccepts_true_iff i row).trans (spec8Accepts_true_iff i row).symm)

/-- The filter loop is the indexed filter-map it looks like: keep the
rows the code accepts, project each, preserve order. -/
theorem relevantLoop_eq (rows : List RawRow) : ∀ i : Nat,
    relevantLoop i rows
      = ((List.enumFrom i rows).filter (fun p => codeAccepts p.1 p.2)).map
          (fun p => projectRow p.2) := by
  induction rows with
  | nil => intro i; rfl
  | cons row rest ih =>
    intro i
    simp only [relevantLoop, List.enumFrom, codeAccepts, List.filter_cons]
    by_cases h1 : 3 ≤ i
    · by_cases h2 : 8 ≤ row.length
      · by_cases h3 : (has_number row && has_customer row) = true
        · simp [h1, h2, h3, ih (i + 1), codeAccepts]
        · simp [h1, h2, h3, ih (i + 1), codeAccepts,
            Bool.eq_false_iff.mpr h3]
      · simp [h1, h2, ih (i + 1), codeAccepts]
    · simp [h1, ih (i + 1), codeAccepts]

theorem projectRow_eq_specProject (row : RawRow) (h : 8 ≤ row.length) :
    projectRow row = specProject row := by
  unfold projectRow specProject
  rw [if_pos (by omega : 6 < row.length), if_pos (by omega : 7 < row.length)]

theorem find_new_rows_snd (s : DetectorState) (R : List Record) (C : Nat) :
    (find_new_rows s R C).2 = ⟨C, R⟩ := by
  unfold find_new_rows
  split <;> rfl

theorem find_new_rows_of_zero (s : DetectorState) (R : List Record) (C : Nat)
    (h : s.previous_row_count = 0) :
    find_new_rows s R C = ([], ⟨C, R⟩) := by
  unfold find_new_rows
  rw [if_pos h]

theorem send_telegram_message_eq (o : SendOutcome) :
    send_telegram_message o = decide (o = SendOutcome.response 200) := by
  cases o with
  | response code =>
    show (code == 200) = decide (SendOutcome.response code = SendOutcome.response 200)
    exact bool_eq_of_iff (by simp)
  | exception => simp [send_telegram_message]

/-- Claim C1 (amended to previous_count at least 1): for an initialized
detector state whose previous_row_count is P with 1 ≤ P, calling
find_new_rows with records R and count C = length R returns the last
C − P elements of R in original order when C > P, and the empty list
when C ≤ P.  (For P = 0 the code instead takes the re-baselining branch;
see the counterexample.) -/
theorem delta_correctness (P : Nat) (prev R : List Record) (hP : 1 ≤ P) :
    (find_new_rows ⟨P, prev⟩ R R.length).1
      = if P < R.length then lastElems (R.length - P) R else [] := by
  unfold find_new_rows
  split
  · next h0 => exact absurd (show P = 0 from h0) (by omega)
  · next h0 =>
    show (if P < R.length then pyTailSlice (R.length - P) R else []) = _
    split
    · next hlt =>
      unfold pyTailSlice
      rw [if_neg (by omega : ¬ R.length - P = 0)]
      rfl
    · rfl

/-- Witness for claim C1 at P = 1, R of length 2. -/
theorem delta_correctness_witness :
    (find_new_rows ⟨1, []⟩ [sampleRecord, sampleRecord] 2).1
      = if 1 < 2 then lastElems 1 [sampleRecord, sampleRecord] else [] :=
  delta_correctness 1 [] [sampleRecord, sampleRecord] (by decide)

/-- Counterexample to claim C1 as stated: the state left behind by a
cycle that observed 0 records is an initialized state with
previous_count = 0; a call on it with one record and count 1 > 0 returns
the empty list, not the last 1 − 0 = 1 elements. -/
theorem delta_zero_baseline_cex :
    ((find_new_rows ⟨5, []⟩ [] 0).2).previous_row_count = 0 ∧
    (find_new_rows (find_new_rows ⟨5, []⟩ [] 0).2 [sampleRecord] 1).1 = [] ∧
    lastElems (1 - 0) [sampleRecord] = [sampleRecord] ∧
    ([] : List Record) ≠ [sampleRecord] := by
  decide

/-- Claim C2: on a successful fetch the filter output is exactly the
rows at index at least 3 with at least 8 cells, cell 0 non-empty after
trimming and all decimal digits, and cell 5 non-empty after trimming,
each projected to (cell 0, cell 5, cell 6, cell 7), in original order,
and the returned count is the number of accepted rows. -/
theorem row_filter_projection (rows : List RawRow) :
    (get_sultra25_data (.ok rows)).1
      = ((List.enumFrom 0 rows).filter (fun p => specAccepts p.1 p.2)).map
          (fun p => specProject p.2) ∧
    (get_sultra25_data (.ok rows)).2
      = (((List.enumFrom 0 rows).filter (fun p => specAccepts p.1 p.2)).map
          (fun p => specProject p.2)).length := by
  have hmain : (get_sultra25_data (.ok rows)).1
      = ((List.enumFrom 0 rows).filter (fun p => specAccepts p.1 p.2)).map
          (fun p => specProject p.2) := by
    show relevantLoop 0 rows = _
    rw [relevantLoop_eq]
    rw [List.filter_congr (fun p _ => codeAccepts_eq_specAccepts p.1 p.2)]
    apply List.map_congr_left
    intro p hp
    have hacc := (List.mem_filter.mp hp).2
    exact projectRow_eq_specProject p.2 ((specAccepts_true_iff p.1 p.2).mp hacc).2.1
  refine ⟨hmain, ?_⟩
  show (relevantLoop 0 rows).length = _
  rw [show relevantLoop 0 rows = (get_sultra25_data (.ok rows)).1 from rfl, hmain]

/-- Claim C3 (amended to require at least 8 cells and cell 5 non-empty
after trimming): the filter output is exactly the rows at index at least
3 with at least 8 cells, a non-empty all-digit cell 0 and a cell 5
non-empty after trimming, projected, in original order; all other rows
(including every row at index below 3) are absent. -/
theorem filter_correctness_amended (rows : List RawRow) :
    (get_sultra25_data (.ok rows)).1
      = ((List.enumFrom 0 rows).filter (fun p => spec8Accepts p.1 p.2)).map
          (fun p => projectRow p.2) := by
  show relevantLoop 0 rows = _
  rw [relevantLoop_eq]
  rw [List.filter_congr (fun p _ => codeAccepts_eq_spec8Accepts p.1 p.2)]

/-- Counterexample to claim C3 as stated: a 6-cell row at index 3 with a
numeric non-empty cell 0 and a non-empty cell 5, and an 8-cell row at
index 4 with a numeric cell 0 and a non-empty (all-blank) cell 5, both
satisfy the claim's stated conditions yet the output is empty. -/
theorem filter_correctness_cex :
    pyIsdigit (cell widthSixRow 0) = true ∧ cell widthSixRow 5 ≠ [] ∧
    pyIsdigit (cell blankCustomerRow 0) = true ∧
    cell blankCustomerRow 5 ≠ [] ∧ blankCustomerRow.length = 8 ∧
    (get_sultra25_data
      (.ok [[], [], [], widthSixRow, blankCustomerRow])).1 = [] := by
  decide

/-- Claim C4: the first call to find_new_rows on the constructor state
returns no records and installs the current count (and records) as the
baseline, for every record list including the empty one. -/
theorem baseline_suppression (R : List Record) :
    find_new_rows initialState R R.length = ([], ⟨R.length, R⟩) :=
  find_new_rows_of_zero initialState R R.length rfl

/-- Claim C5: after every call to find_new_rows with records R and count
C, the detector state is exactly previous_row_count = C and
previous_data = R, whatever the prior state was. -/
theorem detector_state_update (s : DetectorState) (R : List Record) (C : Nat) :
    (find_new_rows s R C).2 = ⟨C, R⟩ :=
  find_new_rows_snd s R C

/-- Claim C6: the fan-out attempts delivery to every recipient exactly
once in list order whatever each outcome is (first conjunct: the attempt
trace equals the recipient list), and the returned success count is the
number of recipients whose send returned HTTP 200 (second conjunct); the
embedding is a total function, reflecting that the code never raises. -/
theorem fanout_independence (outcomeOf : PyStr → SendOutcome)
    (chat_ids : List PyStr) :
    (send_loop outcomeOf chat_ids).2 = chat_ids ∧
    send_multiple_notifications outcomeOf chat_ids
      = (chat_ids.filter
          (fun c => decide (outcomeOf c = SendOutcome.response 200))).length := by
  induction chat_ids with
  | nil => exact ⟨rfl, rfl⟩
  | cons c rest ih =>
    refine ⟨?_, ?_⟩
    · show c :: (send_loop outcomeOf rest).2 = c :: rest
      rw [ih.1]
    · show (if send_telegram_message (outcomeOf c) then 1 else 0)
          + (send_loop outcomeOf rest).1 = _
      rw [List.filter_cons]
      rw [send_telegram_message_eq]
      have ih2 : (send_loop outcomeOf rest).1
          = (rest.filter
              (fun x => decide (outcomeOf x = SendOutcome.response 200))).length :=
        ih.2
      by_cases h : outcomeOf c = SendOutcome.response 200
      · simp [h, ih2, Nat.add_comm]
      · simp [h, ih2]

/-- Claim C7: whichever of the three collaborator calls raises, the
fetch step returns the empty record list paired with count 0. -/
theorem fetch_error_recovery (e : FetchError) :
    get_sultra25_data (.error e) = ([], 0) := rfl

/-- Claim C8: a failed tick whose counter reaches a value from 1 to 4
sleeps 60 and keeps the incremented counter; the failure that makes the
counter reach 5 sleeps 300 once and resets the counter to 0; every
successful tick resets the counter to 0 (sleeping the normal 15); and
the counter never escalates past this tier (it stays at most 4 after
any tick). -/
theorem backoff_escalation (e : Nat) (h : e + 1 ≤ 4) :
    governor_step e Tick.failure = (e + 1, 60) ∧
    governor_step 4 Tick.failure = (0, 300) ∧
    (∀ n : Nat, governor_step n Tick.success = (0, 15)) ∧
    (∀ (n : Nat) (t : Tick), (governor_step n t).1 ≤ 4) := by
  refine ⟨?_, rfl, fun n => rfl, ?_⟩
  · show (if 5 ≤ e + 1 then (0, 300) else (e + 1, 60)) = (e + 1, 60)
    rw [if_neg (by omega)]
  · intro n t
    cases t
    · show (0, 15).1 ≤ 4
      omega
    · show (if 5 ≤ n + 1 then ((0 : Nat), (300 : Nat)) else (n + 1, 60)).1 ≤ 4
      by_cases h5 : 5 ≤ n + 1
      · rw [if_pos h5]
        exact Nat.zero_le 4
      · rw [if_neg h5]
        show n + 1 ≤ 4
        omega

/-- Witness for claim C8 at counter 0. -/
theorem backoff_escalation_witness :
    governor_step 0 Tick.failure = (1, 60) ∧
    governor_step 4 Tick.failure = (0, 300) ∧
    (∀ n : Nat, governor_step n Tick.success = (0, 15)) ∧
    (∀ (n : Nat) (t : Tick), (governor_step n t).1 ≤ 4) :=
  backoff_escalation 0 (by decide)

/-- Claim C9: every record the filter outputs has a non-empty all-digit
sequence_id (field no) and a customer_name that is non-empty after
trimming whitespace. -/
theorem normalized_record_invariant (rows : List RawRow) (r : Record)
    (h : r ∈ (get_sultra25_data (.ok rows)).1) :
    r.no ≠ [] ∧ r.no.all Char.isDigit = true ∧ pyStrip r.customer_name ≠ [] := by
  have h2 : r ∈ relevantLoop 0 rows := h
  rw [relevantLoop_eq] at h2
  obtain ⟨p, hp, rfl⟩ := List.mem_map.mp h2
  obtain ⟨h3, h8, hc0, hdig, hs5⟩ :=
    (codeAccepts_true_iff p.1 p.2).mp (List.mem_filter.mp hp).2
  exact ⟨hc0, hdig, hs5⟩

/-- Witness for claim C9 on a concrete fetch producing sampleRecord. -/
theorem normalized_record_invariant_witness :
    sampleRecord.no ≠ [] ∧ sampleRecord.no.all Char.isDigit = true ∧
      pyStrip sampleRecord.customer_name ≠ [] :=
  normalized_record_invariant sampleRows sampleRecord (by decide)

/-- Claim C10: any call to find_new_rows while previous_row_count = 0
(whether never initialized or reset by a 0-record cycle, such as after a
fetch error) returns the empty list and re-baselines to the current
count and records; consequently the cycle right after any 0-record cycle
yields no notifications no matter how many records arrive. -/
theorem zero_baseline_rearm (s t : DetectorState) (R S : List Record) (C : Nat)
    (h : s.previous_row_count = 0) :
    find_new_rows s R C = ([], ⟨C, R⟩) ∧
    (find_new_rows (find_new_rows t S 0).2 R C).1 = [] := by
  refine ⟨find_new_rows_of_zero s R C h, ?_⟩
  rw [find_new_rows_snd t S 0]
  rw [find_new_rows_of_zero ⟨0, S⟩ R C rfl]

/-- Witness for claim C10: a zeroed state, and a state reset by a
0-record cycle from previous count 7. -/
theorem zero_baseline_rearm_witness :
    find_new_rows ⟨0, []⟩ [sampleRecord] 1 = ([], ⟨1, [sampleRecord]⟩) ∧
    (find_new_rows (find_new_rows ⟨7, []⟩ [] 0).2 [sampleRecord] 1).1 = [] :=
  zero_baseline_rearm ⟨0, []⟩ ⟨7, []⟩ [sampleRecord] [] 1 rfl
